import Mathlib

/-!
Verification of the Learnyst Telegram-bot command relay (src/bot.py,
src/config.py) against its natural-language specification.

The embedding is shallow: each Python function used by the claims is
translated into an executable Lean definition.  External effects are made
explicit —
* the browser-automation call `run_browser_agent` becomes an oracle
  `Nat → AgentResult` giving the outcome of each attempt,
* outbound Telegram sends and agent calls become an event trace `List Ev`,
* wall-clock time becomes a natural-number clock advanced explicitly,
* `random.choice` becomes an arbitrary pick index.
-/

/-! ## String helpers (Python `in`, `.lower()`, `.strip()`, `.split(",")`) -/

/-- Does `needle` occur at the head of `hay`?  (helper for substring search). -/
def startsWithL : List Char → List Char → Bool
  | [], _ => true
  | _ :: _, [] => false
  | a :: as, b :: bs => a = b && startsWithL as bs

/-- Does `needle` occur anywhere inside `hay`?  (helper for substring search). -/
def containsL (needle : List Char) : List Char → Bool
  | [] => startsWithL needle []
  | c :: cs => startsWithL needle (c :: cs) || containsL needle cs

/-- Python `needle in hay` for strings: substring containment. -/
def pyIn (needle hay : String) : Bool := containsL needle.toList hay.toList

/-- Python `str.lower()` on a character list (ASCII inputs). -/
def lowerL (s : List Char) : List Char := s.map Char.toLower

/-- Python `str.lower()`. -/
def lowerS (s : String) : String := String.mk (lowerL s.toList)

/-- The Python whitespace class `\s` (ASCII part, which `re` uses by default
on these inputs): space, tab, newline, carriage return, vertical tab, form feed. -/
def pySpaceChar (c : Char) : Bool :=
  c = ' ' || c = '\t' || c = '\n' || c = '\r' || c = '\x0b' || c = '\x0c'

/-- Python `str.strip()`: remove leading and trailing whitespace. -/
def pyStrip (s : List Char) : List Char :=
  ((s.dropWhile pySpaceChar).reverse.dropWhile pySpaceChar).reverse

/-- Python `str.split(sep)` with an explicit one-character separator:
splitting the empty string yields `[""]`, empty fields are kept. -/
def pySplit (sep : Char) : List Char → List (List Char)
  | [] => [[]]
  | c :: cs =>
    let rest := pySplit sep cs
    if c = sep then [] :: rest
    else
      match rest with
      | [] => [[c]]
      | g :: gs => (c :: g) :: gs

/-! ## A small regex engine

src/bot.py matches commands with `re.fullmatch` on four patterns built from
literals, `\s+`, and greedy character-class repetitions `C+` / `C{2,}`.
The engine below enumerates the candidate consumptions of each atom in
Python backtracking order (greedy: longest first, leftmost atom varied
last), so the first complete match agrees with `re.fullmatch` including
its captured groups. -/

/-- One regex atom of the fragment used by src/bot.py. -/
inductive RAtom where
  | lit (c : Char)
  | plus (cls : Char → Bool)
  | rep2 (cls : Char → Bool)

/-- A segment of a pattern: a run of atoms, possibly a capturing group. -/
structure RSeg where
  capture : Bool
  atoms : List RAtom

/-- Candidate consumptions of a greedy class repetition with lower bound
`low`, longest first: pairs (consumed, remaining input). -/
def runOptions (cls : Char → Bool) (low : Nat) (s : List Char) :
    List (List Char × List Char) :=
  let run := s.takeWhile cls
  let rest := s.drop run.length
  (List.range (run.length + 1)).filterMap (fun k =>
    let len := run.length - k
    if low ≤ len && 0 < len then some (run.take len, run.drop len ++ rest) else none)

/-- Candidate consumptions of one atom, in Python backtracking order. -/
def atomOptions : RAtom → List Char → List (List Char × List Char)
  | RAtom.lit _, [] => []
  | RAtom.lit c, x :: xs => if x = c then [([x], xs)] else []
  | RAtom.plus cls, s => runOptions cls 1 s
  | RAtom.rep2 cls, s => runOptions cls 2 s

/-- Candidate consumptions of a sequence of atoms, in backtracking order. -/
def seqOptions : List RAtom → List Char → List (List Char × List Char)
  | [], s => [([], s)]
  | a :: as, s =>
    (atomOptions a s).flatMap (fun pr =>
      (seqOptions as pr.2).map (fun qr => (pr.1 ++ qr.1, qr.2)))

/-- Candidate matches of a list of segments: captured groups plus the
remaining input, in backtracking order. -/
def segsOptions : List RSeg → List Char → List (List (List Char) × List Char)
  | [], s => [([], s)]
  | seg :: segs, s =>
    (seqOptions seg.atoms s).flatMap (fun pr =>
      (segsOptions segs pr.2).map (fun qr =>
        ((if seg.capture then pr.1 :: qr.1 else qr.1), qr.2)))

/-- Python `re.fullmatch(pattern, s)`: the first backtracking candidate that
consumes the whole input, returning its captured groups. -/
def refullmatch (p : List RSeg) (s : List Char) : Option (List (List Char)) :=
  (((segsOptions p s).filter (fun pr => pr.2.isEmpty)).head?).map (fun pr => pr.1)

/-! ## The four command patterns of src/bot.py -/

/-- The class `\w` (ASCII part): letters, digits, underscore. -/
def wordChar (c : Char) : Bool := c.isAlpha || c.isDigit || c = '_'

/-- The class `[a-zA-Z0-9._%+-]` of the email local part. -/
def emailLocalChar (c : Char) : Bool :=
  c.isAlpha || c.isDigit || c = '.' || c = '_' || c = '%' || c = '+' || c = '-'

/-- The class `[a-zA-Z0-9.-]` of the email domain. -/
def emailDomainChar (c : Char) : Bool :=
  c.isAlpha || c.isDigit || c = '.' || c = '-'

/-- The class `[a-zA-Z]`. -/
def asciiLetter (c : Char) : Bool := c.isAlpha

/-- The class `[^)]`. -/
def notRParen (c : Char) : Bool := !(c = ')')

/-- A string of literal atoms. -/
def litAtoms (s : String) : List RAtom := s.toList.map RAtom.lit

/-- The email subpattern `[a-zA-Z0-9._%+-]+@[a-zA-Z0-9.-]+\.[a-zA-Z]{2,}`. -/
def emailAtoms : List RAtom :=
  [RAtom.plus emailLocalChar, RAtom.lit '@', RAtom.plus emailDomainChar,
   RAtom.lit '.', RAtom.rep2 asciiLetter]

/-- bot.py line 123: `@LearnystBot\s+(<email>)\s+access\s+(\w+)`. -/
def accessPattern : List RSeg :=
  [⟨false, litAtoms "@LearnystBot" ++ [RAtom.plus pySpaceChar]⟩,
   ⟨true, emailAtoms⟩,
   ⟨false, [RAtom.plus pySpaceChar] ++ litAtoms "access" ++ [RAtom.plus pySpaceChar]⟩,
   ⟨true, [RAtom.plus wordChar]⟩]

/-- bot.py line 186: `@LearnystBot\s+(<email>)\s+\(([^)]+)\)\s+enroll\s+(\w+)`. -/
def enrollPattern : List RSeg :=
  [⟨false, litAtoms "@LearnystBot" ++ [RAtom.plus pySpaceChar]⟩,
   ⟨true, emailAtoms⟩,
   ⟨false, [RAtom.plus pySpaceChar, RAtom.lit '(']⟩,
   ⟨true, [RAtom.plus notRParen]⟩,
   ⟨false, [RAtom.lit ')', RAtom.plus pySpaceChar] ++ litAtoms "enroll" ++
     [RAtom.plus pySpaceChar]⟩,
   ⟨true, [RAtom.plus wordChar]⟩]

/-- bot.py line 249: `@LearnystBot\s+(<email>)\s+suspend`. -/
def suspendPattern : List RSeg :=
  [⟨false, litAtoms "@LearnystBot" ++ [RAtom.plus pySpaceChar]⟩,
   ⟨true, emailAtoms⟩,
   ⟨false, [RAtom.plus pySpaceChar] ++ litAtoms "suspend"⟩]

/-- bot.py line 306: `@LearnystBot\s+(<email>)\s+delete`. -/
def deletePattern : List RSeg :=
  [⟨false, litAtoms "@LearnystBot" ++ [RAtom.plus pySpaceChar]⟩,
   ⟨true, emailAtoms⟩,
   ⟨false, [RAtom.plus pySpaceChar] ++ litAtoms "delete"⟩]

/-! ## Static data of src/bot.py and src/config.py -/

/-- bot.py lines 26-34: map of course shortcuts to full names. -/
def COURSE_MAP : List (String × String) :=
  [("fs1", "Full Stack 1"),
   ("fs2", "Full Stack 2"),
   ("fs3", "Full Stack 3"),
   ("fs4", "Full Stack 4"),
   ("fs5", "Full Stack 5"),
   ("meta", "Meta Interview Advance Concepts"),
   ("own", "Ownership")]

/-- The keys of `COURSE_MAP`, as joined into the invalid-code and usage messages. -/
def courseKeys : List String := COURSE_MAP.map (fun kv => kv.1)

/-- bot.py line 48: `TASK_DELAY = 180` (seconds). -/
def TASK_DELAY : Nat := 180

/-- config.py lines 7-12: append a log message, then drop the oldest entry
when the buffer exceeds 100 entries (`LOG_MESSAGES.pop(0)`). -/
def add_log_message (logs : List String) (message : String) : List String :=
  let l := logs ++ [message]
  if l.length > 100 then l.drop 1 else l

/-- bot.py line 37: `LEARNYST_EMAILS`, built by splitting the
`LEARNYST_USERNAME` environment string (default `""`) on commas and
stripping each field. -/
def LEARNYST_EMAILS (env : String) : List String :=
  (pySplit ',' env.toList).map (fun g => String.mk (pyStrip g))

/-- bot.py lines 50-54: `get_random_learnyst_email`.  `random.choice` is
modelled by an arbitrary pick index reduced modulo the list length; the
`ValueError` raise on an empty list becomes `none`. -/
def get_random_learnyst_email (env : String) (pick : Nat) : Option String :=
  match LEARNYST_EMAILS env with
  | [] => none
  | e :: es => some ((e :: es).getD (pick % (e :: es).length) e)

/-! ## Event-trace semantics of process_command (bot.py lines 112-379)

Outbound Telegram sends and browser-agent calls are recorded as events.
Message payloads that matter to the claims (emails, course names, agent
outputs, attempt numbers, the course-code list) are kept; log-file writes
(`add_log_message` calls) go to a separate sink and are not part of the
Telegram trace. -/

/-- Outcome of one `run_browser_agent` call: a returned string, or a raised
exception with its text. -/
inductive AgentResult where
  | ok (output : String)
  | err (msg : String)
deriving DecidableEq

/-- The Telegram messages sent by bot.py, by shape. -/
inductive Msg where
  | processingRequest
  | invalidCourseCode (codes : List String)
  | processingAccess (email course : String)
  | successAccess (course email : String)
  | processingEnroll (name email course : String)
  | successEnroll (name email course : String)
  | processingSuspend (email : String)
  | successSuspend (email : String)
  | processingDelete (email : String)
  | successDelete (email : String)
  | relay (output : String)
  | errorMsg (e : String)
  | retryNotice (attempt maxR : Nat)
  | usage (codes : List String)
  | queuedPosition (pos : Nat)
deriving DecidableEq

/-- One observable event: a Telegram send or a browser-agent call. -/
inductive Ev where
  | send (m : Msg)
  | agentCall
deriving DecidableEq

/-- Python return value of `process_command`: `True`, `False`, or the bare
`return` (`None`) of the invalid-course-code branch. -/
inductive PyRet where
  | rTrue
  | rFalse
  | rNone
deriving DecidableEq

/-- Group `i` of a match, as a character list (empty if absent). -/
def groupStr (caps : List (List Char)) (i : Nat) : List Char := caps.getD i []

/-- The stripped message text, as matched by every dispatch in
`process_command` (bot.py lines 124, 187, 250, 307). -/
def strippedCmd (text : String) : List Char := pyStrip text.toList

/-- bot.py lines 133-175 (`give_access_task`): call the agent; success iff
the output contains `"successfully"` after `.lower()`; on success send the
success message, otherwise relay the raw result; an exception sends its
text.  Returns the events plus the task's boolean result. -/
def give_access_task (r : AgentResult) (email course : String) : List Ev × Bool :=
  match r with
  | AgentResult.ok out =>
    if pyIn "successfully" (lowerS out) then
      ([Ev.agentCall, Ev.send (Msg.successAccess course email)], true)
    else
      ([Ev.agentCall, Ev.send (Msg.relay out)], false)
  | AgentResult.err e => ([Ev.agentCall, Ev.send (Msg.errorMsg e)], false)

/-- bot.py lines 197-238 (`enroll_user_task`): like `give_access_task`, but
the success check `"successfully" in agent_output` is case-sensitive (no
`.lower()`). -/
def enroll_user_task (r : AgentResult) (name email course : String) :
    List Ev × Bool :=
  match r with
  | AgentResult.ok out =>
    if pyIn "successfully" out then
      ([Ev.agentCall, Ev.send (Msg.successEnroll name email course)], true)
    else
      ([Ev.agentCall, Ev.send (Msg.relay out)], false)
  | AgentResult.err e => ([Ev.agentCall, Ev.send (Msg.errorMsg e)], false)

/-- bot.py lines 254-295 (`suspend_user_task`): case-sensitive success check. -/
def suspend_user_task (r : AgentResult) (email : String) : List Ev × Bool :=
  match r with
  | AgentResult.ok out =>
    if pyIn "successfully" out then
      ([Ev.agentCall, Ev.send (Msg.successSuspend email)], true)
    else
      ([Ev.agentCall, Ev.send (Msg.relay out)], false)
  | AgentResult.err e => ([Ev.agentCall, Ev.send (Msg.errorMsg e)], false)

/-- bot.py lines 311-352 (`delete_user_task`): case-sensitive success check. -/
def delete_user_task (r : AgentResult) (email : String) : List Ev × Bool :=
  match r with
  | AgentResult.ok out =>
    if pyIn "successfully" out then
      ([Ev.agentCall, Ev.send (Msg.successDelete email)], true)
    else
      ([Ev.agentCall, Ev.send (Msg.relay out)], false)
  | AgentResult.err e => ([Ev.agentCall, Ev.send (Msg.errorMsg e)], false)

/-- The `while retry_count < max_retries` loop of `process_command`
(bot.py lines 117-378).  `attempt` is the current `retry_count`; `left` is
the structural fuel `max_retries - retry_count`, so the `left = 0` case is
the loop exiting with `return False` (line 379).  Each iteration re-matches
the message text against the four patterns in order, exactly as the code
does, and runs the matching task with the oracle's outcome for this
attempt; on failure `retry_count` is incremented and a retry notice
`(Attempt retry_count+1/3)` is sent while `retry_count < 3`. -/
def process_command_loop (text : String) (oracle : Nat → AgentResult) :
    Nat → Nat → List Ev × PyRet
  | _, 0 => ([], PyRet.rFalse)
  | attempt, left + 1 =>
    let st := strippedCmd text
    let evs0 := [Ev.send Msg.processingRequest]
    match refullmatch accessPattern st with
    | some caps =>
      let email := String.mk (pyStrip (groupStr caps 0))
      let code := String.mk (pyStrip (lowerL (groupStr caps 1)))
      match List.lookup code COURSE_MAP with
      | none => (evs0 ++ [Ev.send (Msg.invalidCourseCode courseKeys)], PyRet.rNone)
      | some course =>
        let evs1 := evs0 ++ [Ev.send (Msg.processingAccess email course)]
        let tr := give_access_task (oracle attempt) email course
        if tr.2 then (evs1 ++ tr.1, PyRet.rTrue)
        else
          let rc := attempt + 1
          let notice := if rc < 3 then [Ev.send (Msg.retryNotice (rc + 1) 3)] else []
          let rest := process_command_loop text oracle rc left
          (evs1 ++ tr.1 ++ notice ++ rest.1, rest.2)
    | none =>
    match refullmatch enrollPattern st with
    | some caps =>
      let email := String.mk (pyStrip (groupStr caps 0))
      let fullName := String.mk (pyStrip (groupStr caps 1))
      let code := String.mk (pyStrip (lowerL (groupStr caps 2)))
      match List.lookup code COURSE_MAP with
      | none => (evs0 ++ [Ev.send (Msg.invalidCourseCode courseKeys)], PyRet.rNone)
      | some course =>
        let evs1 := evs0 ++ [Ev.send (Msg.processingEnroll fullName email course)]
        let tr := enroll_user_task (oracle attempt) fullName email course
        if tr.2 then (evs1 ++ tr.1, PyRet.rTrue)
        else
          let rc := attempt + 1
          let notice := if rc < 3 then [Ev.send (Msg.retryNotice (rc + 1) 3)] else []
          let rest := process_command_loop text oracle rc left
          (evs1 ++ tr.1 ++ notice ++ rest.1, rest.2)
    | none =>
    match refullmatch suspendPattern st with
    | some caps =>
      let email := String.mk (pyStrip (groupStr caps 0))
      let evs1 := evs0 ++ [Ev.send (Msg.processingSuspend email)]
      let tr := suspend_user_task (oracle attempt) email
      if tr.2 then (evs1 ++ tr.1, PyRet.rTrue)
      else
        let rc := attempt + 1
        let notice := if rc < 3 then [Ev.send (Msg.retryNotice (rc + 1) 3)] else []
        let rest := process_command_loop text oracle rc left
        (evs1 ++ tr.1 ++ notice ++ rest.1, rest.2)
    | none =>
    match refullmatch deletePattern st with
    | some caps =>
      let email := String.mk (pyStrip (groupStr caps 0))
      let evs1 := evs0 ++ [Ev.send (Msg.processingDelete email)]
      let tr := delete_user_task (oracle attempt) email
      if tr.2 then (evs1 ++ tr.1, PyRet.rTrue)
      else
        let rc := attempt + 1
        let notice := if rc < 3 then [Ev.send (Msg.retryNotice (rc + 1) 3)] else []
        let rest := process_command_loop text oracle rc left
        (evs1 ++ tr.1 ++ notice ++ rest.1, rest.2)
    | none =>
      (evs0 ++ [Ev.send (Msg.usage courseKeys)], PyRet.rTrue)

/-- bot.py lines 112-379: `process_command` with `max_retries = 3` and
`retry_count = 0`. -/
def process_command (text : String) (oracle : Nat → AgentResult) :
    List Ev × PyRet :=
  process_command_loop text oracle 0 3

/-- bot.py lines 381-406: `process_message`.  Returns the new queue, the
messages sent, and whether a worker thread is spawned (`not is_processing`).
A message without the mention token is ignored entirely; otherwise it is
put on the queue and the queue position is acknowledged. -/
def process_message (isProcessing : Bool) (text : String) (queue : List String) :
    List String × List Msg × Bool :=
  if pyIn "@LearnystBot" text then
    let q := queue ++ [text]
    let pos := q.length
    (q, (if pos > 0 then [Msg.queuedPosition pos] else []), !isProcessing)
  else (queue, [], false)

/-- Number of browser-agent calls in a trace. -/
def callCount (evs : List Ev) : Nat :=
  evs.countP (fun e => match e with | Ev.agentCall => true | _ => false)

/-- Is a message a failure report (a relayed non-success result or an
exception text)? -/
def isFailureReport : Msg → Bool
  | Msg.relay _ => true
  | Msg.errorMsg _ => true
  | _ => false

/-- Is a message one of the four success confirmations? -/
def isSuccessMsg : Msg → Bool
  | Msg.successAccess _ _ => true
  | Msg.successEnroll _ _ _ => true
  | Msg.successSuspend _ => true
  | Msg.successDelete _ => true
  | _ => false

/-- Is a message a retry notice? -/
def isRetryNotice : Msg → Bool
  | Msg.retryNotice _ _ => true
  | _ => false

/-- Count the trace's messages satisfying `p`. -/
def msgCount (p : Msg → Bool) (evs : List Ev) : Nat :=
  evs.countP (fun e => match e with | Ev.send m => p m | _ => false)

/-! ## Single-worker semantics of process_queued_commands (bot.py 73-110)

One worker thread running the loop.  Time is a natural-number clock:
`time.sleep(1)` advances it by one, executing a task advances it by that
task's duration `dur`.  One loop iteration is one step; a completed task is
appended to `executed` as (task, start time, completion time), and
`last_task_time` is set to the completion time (line 99). -/

/-- The worker's shared state: the queue, the `last_task_time` and
`is_processing` globals, the clock, and the execution history. -/
structure WState where
  queue : List String
  lastTaskTime : Nat
  now : Nat
  isProcessing : Bool
  executed : List (String × Nat × Nat)
deriving DecidableEq

/-- One iteration of the worker loop, for a single worker: exit if the
queue is empty; sleep if `is_processing` or if the pacing delay has not
elapsed; otherwise dequeue the head and run it to completion (the
`is_processing := True ... finally: is_processing := False` bracket
collapses inside the iteration). -/
def process_queued_commands_step (dur : String → Nat) (s : WState) : WState :=
  if s.queue.isEmpty then s
  else if s.isProcessing then { s with now := s.now + 1 }
  else if s.now - s.lastTaskTime < TASK_DELAY then { s with now := s.now + 1 }
  else
    match s.queue with
    | [] => s
    | t :: rest =>
      { queue := rest,
        lastTaskTime := s.now + dur t,
        now := s.now + dur t,
        isProcessing := false,
        executed := s.executed ++ [(t, s.now, s.now + dur t)] }

/-- Run `n` worker-loop iterations. -/
def process_queued_commands_run (dur : String → Nat) : Nat → WState → WState
  | 0, s => s
  | n + 1, s => process_queued_commands_run dur n (process_queued_commands_step dur s)

/-- Initial worker state: pending tasks `ts`, `last_task_time = 0` (module
load, bot.py line 47), clock at `now0`, nothing executed. -/
def initW (ts : List String) (now0 : Nat) : WState :=
  ⟨ts, 0, now0, false, []⟩

/-- The pacing predicate: starting from previous completion time `prev`,
every executed task starts at least `TASK_DELAY` after the previous
recorded completion. -/
def pacedFrom (prev : Nat) : List (String × Nat × Nat) → Bool
  | [] => true
  | e :: rest => decide (prev + TASK_DELAY ≤ e.2.1) && pacedFrom e.2.2 rest

/-- The completion time of the last executed task (`prev` if none). -/
def lastComp (prev : Nat) : List (String × Nat × Nat) → Nat
  | [] => prev
  | e :: rest => lastComp e.2.2 rest

/-! ## Interleaved two-thread semantics (bot.py 73-110 and 381-406)

`process_message` spawns a fresh `process_queued_commands` thread whenever
`is_processing` is false (line 405-406), so several workers can run the
loop concurrently.  Each Python statement of the loop is one atomic step;
a thread is a program counter plus the command it dequeued. -/

/-- Program counter inside the worker loop: the queue-empty test (line 77),
the `is_processing` test (line 78), the pacing test (lines 83-84), setting
the flag (line 88), `command_queue.get()` (line 89), executing
`process_command` (line 96), and loop exit. -/
inductive TPc where
  | checkQueue
  | checkFlag
  | checkTime
  | setFlag
  | getTask
  | executing
  | finished
deriving DecidableEq

/-- One worker thread: its position in the loop and its dequeued command. -/
structure Thread where
  pc : TPc
  current : Option String
deriving DecidableEq

/-- The whole system: the shared globals and up to two worker threads. -/
structure Sys where
  queue : List String
  isProcessing : Bool
  lastTaskTime : Nat
  now : Nat
  th0 : Option Thread
  th1 : Option Thread
deriving DecidableEq

/-- One atomic step of one worker thread against the shared state.  The
`executing` step finishes the task: `last_task_time` is recorded and the
`finally` clause clears `is_processing` (lines 99, 109). -/
def thread_step (s : Sys) (t : Thread) : Sys × Thread :=
  match t.pc with
  | TPc.checkQueue =>
    if s.queue.isEmpty then (s, { t with pc := TPc.finished })
    else (s, { t with pc := TPc.checkFlag })
  | TPc.checkFlag =>
    if s.isProcessing then ({ s with now := s.now + 1 }, { t with pc := TPc.checkQueue })
    else (s, { t with pc := TPc.checkTime })
  | TPc.checkTime =>
    if s.now - s.lastTaskTime < TASK_DELAY then
      ({ s with now := s.now + 1 }, { t with pc := TPc.checkQueue })
    else (s, { t with pc := TPc.setFlag })
  | TPc.setFlag => ({ s with isProcessing := true }, { t with pc := TPc.getTask })
  | TPc.getTask =>
    match s.queue with
    | [] => (s, { t with pc := TPc.finished })
    | c :: rest => ({ s with queue := rest }, { t with pc := TPc.executing, current := some c })
  | TPc.executing =>
    ({ s with lastTaskTime := s.now, isProcessing := false },
     { t with pc := TPc.checkQueue, current := none })
  | TPc.finished => (s, t)

/-- External actions: a Telegram message arrives (`process_message` runs:
enqueue, then spawn a worker into a free slot if `is_processing` is false),
or one of the two threads takes its next atomic step. -/
inductive Act where
  | arrive (text : String)
  | run0
  | run1
deriving DecidableEq

/-- Apply one action to the system. -/
def sys_step (s : Sys) : Act → Sys
  | Act.arrive text =>
    if pyIn "@LearnystBot" text then
      let s1 := { s with queue := s.queue ++ [text] }
      if s1.isProcessing then s1
      else
        match s1.th0 with
        | none => { s1 with th0 := some ⟨TPc.checkQueue, none⟩ }
        | some _ =>
          match s1.th1 with
          | none => { s1 with th1 := some ⟨TPc.checkQueue, none⟩ }
          | some _ => s1
    else s
  | Act.run0 =>
    match s.th0 with
    | none => s
    | some t =>
      let r := thread_step s t
      { r.1 with th0 := some r.2 }
  | Act.run1 =>
    match s.th1 with
    | none => s
    | some t =>
      let r := thread_step s t
      { r.1 with th1 := some r.2 }

/-- Run a schedule of actions from a start state. -/
def sys_run (acts : List Act) (s : Sys) : Sys := acts.foldl sys_step s

/-- The system at module load: empty queue, `is_processing = False`,
`last_task_time = 0`, no worker threads; the clock is any time at least
`TASK_DELAY` past 0 (here 1000). -/
def sys0 : Sys := ⟨[], false, 0, 1000, none, none⟩

/-- Are two tasks mid-execution at the same moment? -/
def twoInFlight (s : Sys) : Bool :=
  match s.th0, s.th1 with
  | some a, some b => a.pc = TPc.executing && b.pc = TPc.executing
  | _, _ => false

/-- The interleaving that breaks single-flight: two commands arrive
(each spawning a worker while `is_processing` is still false), both workers
pass the `is_processing` check before either sets the flag, then both
dequeue and execute. -/
def raceSchedule : List Act :=
  [Act.arrive "@LearnystBot a@b.com suspend",
   Act.arrive "@LearnystBot c@d.com delete",
   Act.run0, Act.run0, Act.run0,
   Act.run1, Act.run1, Act.run1,
   Act.run0, Act.run0,
   Act.run1, Act.run1]

/-- Does this attempt outcome count as a failure for `give_access_task`
(no `"successfully"` in the lowered output, or an exception)? -/
def attemptFailsCI (r : AgentResult) : Bool :=
  match r with
  | AgentResult.ok out => !(pyIn "successfully" (lowerS out))
  | AgentResult.err _ => true

/-- Does this attempt outcome count as a failure for the case-sensitive
tasks `enroll_user_task`, `suspend_user_task` and `delete_user_task`
(no exact `"successfully"` in the raw output, or an exception)? -/
def attemptFailsCS (r : AgentResult) : Bool :=
  match r with
  | AgentResult.ok out => !(pyIn "successfully" out)
  | AgentResult.err _ => true

/-- The worker-loop invariant behind C2: executed tasks followed by the
pending queue reproduce the enqueue order, the execution history is paced,
and `last_task_time` records the last completion. -/
def WInv (ts : List String) (s : WState) : Prop :=
  s.executed.map (fun e => e.1) ++ s.queue = ts ∧
  pacedFrom 0 s.executed = true ∧
  s.lastTaskTime = lastComp 0 s.executed ∧
  s.lastTaskTime ≤ s.now

/-! ## Helper lemmas -/

theorem pySplit_ne_nil (sep : Char) (l : List Char) : pySplit sep l ≠ [] := by
  induction l with
  | nil => simp [pySplit]
  | cons c cs ih =>
    simp only [pySplit]
    split
    · simp
    · cases h : pySplit sep cs with
      | nil => simp
      | cons g gs => simp [h]

theorem msgCount_send (p : Msg → Bool) (m : Msg) (evs : List Ev) :
    msgCount p (Ev.send m :: evs) = msgCount p evs + (if p m = true then 1 else 0) := by
  simp [msgCount, List.countP_cons]

theorem msgCount_call (p : Msg → Bool) (evs : List Ev) :
    msgCount p (Ev.agentCall :: evs) = msgCount p evs := by
  simp [msgCount, List.countP_cons]

theorem msgCount_nil (p : Msg → Bool) : msgCount p [] = 0 := rfl

theorem give_access_task_fail (r : AgentResult) (email course : String)
    (h : attemptFailsCI r = true) :
    ∃ m, give_access_task r email course = ([Ev.agentCall, Ev.send m], false) ∧
      isFailureReport m = true := by
  cases r with
  | ok out =>
    refine ⟨Msg.relay out, ?_, rfl⟩
    have hb : pyIn "successfully" (lowerS out) = false := by
      simpa [attemptFailsCI] using h
    simp [give_access_task, hb]
  | err e => exact ⟨Msg.errorMsg e, rfl, rfl⟩

theorem enroll_user_task_fail (r : AgentResult) (name email course : String)
    (h : attemptFailsCS r = true) :
    ∃ m, enroll_user_task r name email course = ([Ev.agentCall, Ev.send m], false) ∧
      isFailureReport m = true := by
  cases r with
  | ok out =>
    refine ⟨Msg.relay out, ?_, rfl⟩
    have hb : pyIn "successfully" out = false := by
      simpa [attemptFailsCS] using h
    simp [enroll_user_task, hb]
  | err e => exact ⟨Msg.errorMsg e, rfl, rfl⟩

theorem suspend_user_task_fail (r : AgentResult) (email : String)
    (h : attemptFailsCS r = true) :
    ∃ m, suspend_user_task r email = ([Ev.agentCall, Ev.send m], false) ∧
      isFailureReport m = true := by
  cases r with
  | ok out =>
    refine ⟨Msg.relay out, ?_, rfl⟩
    have hb : pyIn "successfully" out = false := by
      simpa [attemptFailsCS] using h
    simp [suspend_user_task, hb]
  | err e => exact ⟨Msg.errorMsg e, rfl, rfl⟩

theorem delete_user_task_fail (r : AgentResult) (email : String)
    (h : attemptFailsCS r = true) :
    ∃ m, delete_user_task r email = ([Ev.agentCall, Ev.send m], false) ∧
      isFailureReport m = true := by
  cases r with
  | ok out =>
    refine ⟨Msg.relay out, ?_, rfl⟩
    have hb : pyIn "successfully" out = false := by
      simpa [attemptFailsCS] using h
    simp [delete_user_task, hb]
  | err e => exact ⟨Msg.errorMsg e, rfl, rfl⟩

theorem failure_report_not_retry_or_success (m : Msg)
    (h : isFailureReport m = true) :
    isRetryNotice m = false ∧ isSuccessMsg m = false := by
  cases m <;> simp_all [isFailureReport, isRetryNotice, isSuccessMsg]

theorem failure_report_shape (m : Msg) (h : isFailureReport m = true) :
    (∃ o, m = Msg.relay o) ∨ (∃ e, m = Msg.errorMsg e) := by
  cases m
  case relay o => exact Or.inl ⟨o, rfl⟩
  case errorMsg e => exact Or.inr ⟨e, rfl⟩
  all_goals simp [isFailureReport] at h

theorem lastComp_append (p : Nat) (ex : List (String × Nat × Nat))
    (x : String × Nat × Nat) : lastComp p (ex ++ [x]) = x.2.2 := by
  induction ex generalizing p with
  | nil => rfl
  | cons y ys ih => simpa [lastComp] using ih y.2.2

theorem pacedFrom_append (p st c : Nat) (t : String) (ex : List (String × Nat × Nat))
    (h : pacedFrom p ex = true) (hs : lastComp p ex + TASK_DELAY ≤ st) :
    pacedFrom p (ex ++ [(t, st, c)]) = true := by
  induction ex generalizing p with
  | nil => simpa [pacedFrom, lastComp] using hs
  | cons y ys ih =>
    simp only [pacedFrom, List.cons_append, Bool.and_eq_true] at h ⊢
    exact ⟨h.1, ih y.2.2 h.2 (by simpa [lastComp] using hs)⟩

theorem winv_step (dur : String → Nat) (ts : List String) (s : WState)
    (h : WInv ts s) : WInv ts (process_queued_commands_step dur s) := by
  obtain ⟨hfifo, hpaced, hlast, hle⟩ := h
  unfold process_queued_commands_step
  split
  · exact ⟨hfifo, hpaced, hlast, hle⟩
  · split
    · exact ⟨hfifo, hpaced, hlast, by show s.lastTaskTime ≤ s.now + 1; omega⟩
    · split
      · exact ⟨hfifo, hpaced, hlast, by show s.lastTaskTime ≤ s.now + 1; omega⟩
      · rename_i hne hflag htime
        cases hq : s.queue with
        | nil => simp [hq] at hne
        | cons t rest =>
          rw [hq] at hfifo
          refine ⟨?_, ?_, ?_, ?_⟩
          · simpa [List.map_append] using hfifo
          · refine pacedFrom_append _ _ _ _ _ hpaced ?_
            rw [← hlast]
            omega
          · simp [lastComp_append]
          · simp

theorem winv_run (dur : String → Nat) (ts : List String) (n : Nat) (s : WState)
    (h : WInv ts s) : WInv ts (process_queued_commands_run dur n s) := by
  induction n generalizing s with
  | zero => exact h
  | succ k ih => exact ih _ (winv_step dur ts s h)

/-! ## Claim theorems -/

/-- C1.  The single-flight invariant does NOT hold in the code: under the
interleaved semantics of `process_queued_commands` and `process_message`,
the schedule `raceSchedule` — two mentioning messages arrive while
`is_processing` is false, each spawning a worker thread, and both workers
pass the `is_processing` check (bot.py line 78) before either sets the
flag (line 88) — drives the system from its initial state to a state in
which both threads are mid-execution of `process_command` at once, on the
two distinct dequeued tasks. -/
theorem two_tasks_in_flight_reachable :
    twoInFlight (sys_run raceSchedule sys0) = true ∧
    (sys_run raceSchedule sys0).th0 =
      some ⟨TPc.executing, some "@LearnystBot a@b.com suspend"⟩ ∧
    (sys_run raceSchedule sys0).th1 =
      some ⟨TPc.executing, some "@LearnystBot c@d.com delete"⟩ := by
  decide

/-- C2.  Under the single-worker semantics of `process_queued_commands`
(bot.py lines 73-110): after any number of loop iterations, the executed
tasks followed by the still-pending queue equal the original enqueue
sequence (strict FIFO), and the execution history is paced — every task's
start time is at least `TASK_DELAY = 180` seconds after the recorded
completion time (`last_task_time`, bot.py line 99) of the previous task. -/
theorem worker_fifo_and_pacing (dur : String → Nat) (ts : List String)
    (now0 n : Nat) :
    (process_queued_commands_run dur n (initW ts now0)).executed.map (fun e => e.1) ++
        (process_queued_commands_run dur n (initW ts now0)).queue = ts ∧
    pacedFrom 0 (process_queued_commands_run dur n (initW ts now0)).executed = true := by
  have h0 : WInv ts (initW ts now0) := by
    refine ⟨by simp [initW], rfl, rfl, by simp [initW]⟩
  have h := winv_run dur ts n (initW ts now0) h0
  exact ⟨h.1, h.2.1⟩

/-- C9.  The log buffer is bounded: if `LOG_MESSAGES` holds at most 100
entries before a call to `add_log_message`, it holds at most 100 after;
and when the bound is reached (exactly 100 entries) the new message evicts
exactly the oldest entry, keeping the rest in order. -/
theorem add_log_message_bounded_eviction (logs : List String) (m : String)
    (h : logs.length ≤ 100) :
    (add_log_message logs m).length ≤ 100 ∧
    (logs.length = 100 → add_log_message logs m = logs.drop 1 ++ [m]) := by
  by_cases hc : (logs ++ [m]).length > 100
  · constructor
    · simp only [add_log_message, hc, if_true]
      simp at hc ⊢
      omega
    · intro h100
      simp only [add_log_message, hc, if_true]
      rw [List.drop_append_of_le_length (by omega)]
  · constructor
    · simp only [add_log_message, hc, if_false]
      simp at hc ⊢
      omega
    · intro h100
      exfalso
      simp at hc
      omega

/-- Witness for C9 at a full buffer. -/
theorem add_log_message_bounded_eviction_witness :
    (add_log_message (List.replicate 100 "a") "b").length ≤ 100 ∧
    ((List.replicate 100 "a").length = 100 →
      add_log_message (List.replicate 100 "a") "b" =
        (List.replicate 100 "a").drop 1 ++ ["b"]) :=
  add_log_message_bounded_eviction (List.replicate 100 "a") "b" (by simp)

/-- C10.  `get_random_learnyst_email` never reaches its
"No Learnyst emails configured" `ValueError`: splitting any environment
string on commas yields at least one (possibly empty) field, so
`LEARNYST_EMAILS` is never the empty list; with no configuration
(`LEARNYST_USERNAME` absent, i.e. the default `""`), the function returns
the empty string. -/
theorem learnyst_email_never_raises :
    (∀ env pick, (get_random_learnyst_email env pick).isSome = true) ∧
    (∀ pick, get_random_learnyst_email "" pick = some "") := by
  constructor
  · intro env pick
    unfold get_random_learnyst_email
    cases h : LEARNYST_EMAILS env with
    | nil =>
      exfalso
      have := pySplit_ne_nil ',' env.toList
      unfold LEARNYST_EMAILS at h
      simp only [List.map_eq_nil_iff] at h
      exact this h
    | cons e es => simp
  · intro pick
    show get_random_learnyst_email "" pick = some ""
    have hsplit : LEARNYST_EMAILS "" = [""] := by decide
    unfold get_random_learnyst_email
    rw [hsplit]
    simp

/-- C6.  (a) Any inbound message whose text does not contain the mention
token `@LearnystBot` is ignored by `process_message`: no reply is sent,
nothing is enqueued, no worker is spawned.  (b) The input
`"@LearnystBot jane@x.com access fs1"` full-matches the GRANT_ACCESS
pattern with email group `jane@x.com` and course-code group `fs1`, and the
(case-insensitively lowered) code `fs1` maps to course name
`Full Stack 1` in `COURSE_MAP`. -/
theorem mention_gate_and_access_parse :
    (∀ (isP : Bool) (text : String) (q : List String),
        pyIn "@LearnystBot" text = false →
        process_message isP text q = (q, [], false)) ∧
    refullmatch accessPattern (strippedCmd "@LearnystBot jane@x.com access fs1") =
      some ["jane@x.com".toList, "fs1".toList] ∧
    List.lookup "fs1" COURSE_MAP = some "Full Stack 1" := by
  refine ⟨?_, by decide, by decide⟩
  intro isP text q h
  simp [process_message, h]

/-- Witness for C6 at a mention-free text. -/
theorem mention_gate_and_access_parse_witness :
    process_message false "hello world" [] = ([], [], false) ∧
    List.lookup "fs1" COURSE_MAP = some "Full Stack 1" :=
  ⟨mention_gate_and_access_parse.1 false "hello world" [] (by decide),
   mention_gate_and_access_parse.2.2⟩

/-- C5 counterexample.  The command `"@LearnystBot jane@x.com access zz"`
has course code `zz`, which is not in `COURSE_MAP` — yet `process_message`
places it on the queue (the queue grows from empty to one task), because
course-code validation happens only inside `process_command`, after
dequeue.  This refutes "the system never places a task on the queue; the
rejection happens before enqueue". -/
theorem invalid_code_still_enqueued_cex :
    refullmatch accessPattern (strippedCmd "@LearnystBot jane@x.com access zz") =
      some ["jane@x.com".toList, "zz".toList] ∧
    List.lookup "zz" COURSE_MAP = none ∧
    (process_message false "@LearnystBot jane@x.com access zz" []).1 =
      ["@LearnystBot jane@x.com access zz"] := by
  decide

/-- C5 as amended.  For every command message whose course code is not in
`COURSE_MAP` — a GRANT_ACCESS or an ENROLL command, the two intents that
carry a course code: `process_message` nonetheless appends it to the queue
(no validation happens before enqueue); when the worker later dequeues it,
`process_command` always responds with the invalid-code message listing
all valid course codes, makes no executor call, and returns without
retrying — so the rejection happens after dequeue, not before enqueue. -/
theorem invalid_code_rejected_after_dequeue
    (text : String) (oracle : Nat → AgentResult)
    (isP : Bool) (q : List String)
    (hm : pyIn "@LearnystBot" text = true)
    (hcode :
      (∃ e c, refullmatch accessPattern (strippedCmd text) = some [e, c] ∧
        List.lookup (String.mk (pyStrip (lowerL c))) COURSE_MAP = none) ∨
      (∃ e n c, refullmatch accessPattern (strippedCmd text) = none ∧
        refullmatch enrollPattern (strippedCmd text) = some [e, n, c] ∧
        List.lookup (String.mk (pyStrip (lowerL c))) COURSE_MAP = none)) :
    (process_message isP text q).1 = q ++ [text] ∧
    process_command text oracle =
      ([Ev.send Msg.processingRequest, Ev.send (Msg.invalidCourseCode courseKeys)],
        PyRet.rNone) ∧
    callCount (process_command text oracle).1 = 0 := by
  have htr : process_command text oracle =
      ([Ev.send Msg.processingRequest, Ev.send (Msg.invalidCourseCode courseKeys)],
        PyRet.rNone) := by
    rcases hcode with ⟨e, c, h1, h2⟩ | ⟨e, n, c, h0, h2, h3⟩
    · simp [process_command, process_command_loop, h1, h2, groupStr]
    · simp [process_command, process_command_loop, h0, h2, h3, groupStr]
  refine ⟨by simp [process_message, hm], htr, ?_⟩
  rw [htr]
  decide

/-- Witness for C5-as-amended at concrete invalid codes: the access command
with code `zz` and the enroll command with code `qq`. -/
theorem invalid_code_rejected_after_dequeue_witness :
    ((process_message false "@LearnystBot jane@x.com access zz" []).1 =
      [] ++ ["@LearnystBot jane@x.com access zz"] ∧
    process_command "@LearnystBot jane@x.com access zz" (fun _ => AgentResult.err "boom") =
      ([Ev.send Msg.processingRequest, Ev.send (Msg.invalidCourseCode courseKeys)],
        PyRet.rNone) ∧
    callCount (process_command "@LearnystBot jane@x.com access zz"
      (fun _ => AgentResult.err "boom")).1 = 0) ∧
    ((process_message false "@LearnystBot jane@x.com (Jane Doe) enroll qq" []).1 =
      [] ++ ["@LearnystBot jane@x.com (Jane Doe) enroll qq"] ∧
    process_command "@LearnystBot jane@x.com (Jane Doe) enroll qq"
        (fun _ => AgentResult.err "boom") =
      ([Ev.send Msg.processingRequest, Ev.send (Msg.invalidCourseCode courseKeys)],
        PyRet.rNone) ∧
    callCount (process_command "@LearnystBot jane@x.com (Jane Doe) enroll qq"
      (fun _ => AgentResult.err "boom")).1 = 0) :=
  ⟨invalid_code_rejected_after_dequeue "@LearnystBot jane@x.com access zz"
    (fun _ => AgentResult.err "boom") false []
    (by decide) (Or.inl ⟨"jane@x.com".toList, "zz".toList, by decide, by decide⟩),
   invalid_code_rejected_after_dequeue "@LearnystBot jane@x.com (Jane Doe) enroll qq"
    (fun _ => AgentResult.err "boom") false []
    (by decide) (Or.inr ⟨"jane@x.com".toList, "Jane Doe".toList, "qq".toList,
      by decide, by decide, by decide⟩)⟩

/-- C8.  Matching is whole-string on the stripped text: any message text
that matches one of the four command patterns only as a proper prefix
(there is trailing garbage, so no pattern full-matches the whole stripped
text) is not recognized as that intent — `process_command` falls through
all four `re.fullmatch` dispatches and produces the usage response,
calling no executor. -/
theorem trailing_garbage_usage_response
    (text : String) (oracle : Nat → AgentResult)
    (_hpre : ∃ p g, strippedCmd text = p ++ g ∧ g ≠ [] ∧
      ((refullmatch accessPattern p).isSome ∨ (refullmatch enrollPattern p).isSome ∨
       (refullmatch suspendPattern p).isSome ∨ (refullmatch deletePattern p).isSome))
    (ha : refullmatch accessPattern (strippedCmd text) = none)
    (he : refullmatch enrollPattern (strippedCmd text) = none)
    (hs : refullmatch suspendPattern (strippedCmd text) = none)
    (hd : refullmatch deletePattern (strippedCmd text) = none) :
    process_command text oracle =
      ([Ev.send Msg.processingRequest, Ev.send (Msg.usage courseKeys)],
        PyRet.rTrue) := by
  simp [process_command, process_command_loop, ha, he, hs, hd]

/-- Witness for C8: `"@LearnystBot a@b.com delete now"` matches the DELETE
pattern on the proper prefix `"@LearnystBot a@b.com delete"` but no
pattern matches the whole text, so the usage response is produced. -/
theorem trailing_garbage_usage_response_witness :
    process_command "@LearnystBot a@b.com delete now" (fun _ => AgentResult.err "boom") =
      ([Ev.send Msg.processingRequest, Ev.send (Msg.usage courseKeys)],
        PyRet.rTrue) :=
  trailing_garbage_usage_response "@LearnystBot a@b.com delete now"
    (fun _ => AgentResult.err "boom")
    ⟨"@LearnystBot a@b.com delete".toList, " now".toList, by decide, by decide,
      Or.inr (Or.inr (Or.inr (by decide)))⟩
    (by decide) (by decide) (by decide) (by decide)

/-- One failing iteration of the retry loop on a GRANT_ACCESS command:
the iteration sends the two processing messages, calls the agent once,
sends one failure report, then (while `retry_count < 3`) one retry notice,
and continues with the next attempt. -/
theorem access_iter_fail (text : String) (e c : List Char) (course : String)
    (oracle : Nat → AgentResult) (attempt left : Nat)
    (h1 : refullmatch accessPattern (strippedCmd text) = some [e, c])
    (h2 : List.lookup (String.mk (pyStrip (lowerL c))) COURSE_MAP = some course)
    (hf : attemptFailsCI (oracle attempt) = true) :
    ∃ m, isFailureReport m = true ∧
      process_command_loop text oracle attempt (left + 1) =
        ([Ev.send Msg.processingRequest,
          Ev.send (Msg.processingAccess (String.mk (pyStrip e)) course),
          Ev.agentCall, Ev.send m] ++
         (if attempt + 1 < 3 then [Ev.send (Msg.retryNotice (attempt + 1 + 1) 3)] else []) ++
         (process_command_loop text oracle (attempt + 1) left).1,
         (process_command_loop text oracle (attempt + 1) left).2) := by
  obtain ⟨m, hm, hfm⟩ :=
    give_access_task_fail (oracle attempt) (String.mk (pyStrip e)) course hf
  refine ⟨m, hfm, ?_⟩
  simp only [process_command_loop]
  simp [h1, h2, hm, groupStr]

/-- One failing iteration of the retry loop on an ENROLL command. -/
theorem enroll_iter_fail (text : String) (e n c : List Char) (course : String)
    (oracle : Nat → AgentResult) (attempt left : Nat)
    (h1 : refullmatch accessPattern (strippedCmd text) = none)
    (h2 : refullmatch enrollPattern (strippedCmd text) = some [e, n, c])
    (h3 : List.lookup (String.mk (pyStrip (lowerL c))) COURSE_MAP = some course)
    (hf : attemptFailsCS (oracle attempt) = true) :
    ∃ m, isFailureReport m = true ∧
      process_command_loop text oracle attempt (left + 1) =
        ([Ev.send Msg.processingRequest,
          Ev.send (Msg.processingEnroll (String.mk (pyStrip n))
            (String.mk (pyStrip e)) course),
          Ev.agentCall, Ev.send m] ++
         (if attempt + 1 < 3 then [Ev.send (Msg.retryNotice (attempt + 1 + 1) 3)] else []) ++
         (process_command_loop text oracle (attempt + 1) left).1,
         (process_command_loop text oracle (attempt + 1) left).2) := by
  obtain ⟨m, hm, hfm⟩ := enroll_user_task_fail (oracle attempt)
    (String.mk (pyStrip n)) (String.mk (pyStrip e)) course hf
  refine ⟨m, hfm, ?_⟩
  simp only [process_command_loop]
  simp [h1, h2, h3, hm, groupStr]

/-- One failing iteration of the retry loop on a SUSPEND command. -/
theorem suspend_iter_fail (text : String) (e : List Char)
    (oracle : Nat → AgentResult) (attempt left : Nat)
    (h1 : refullmatch accessPattern (strippedCmd text) = none)
    (h2 : refullmatch enrollPattern (strippedCmd text) = none)
    (h3 : refullmatch suspendPattern (strippedCmd text) = some [e])
    (hf : attemptFailsCS (oracle attempt) = true) :
    ∃ m, isFailureReport m = true ∧
      process_command_loop text oracle attempt (left + 1) =
        ([Ev.send Msg.processingRequest,
          Ev.send (Msg.processingSuspend (String.mk (pyStrip e))),
          Ev.agentCall, Ev.send m] ++
         (if attempt + 1 < 3 then [Ev.send (Msg.retryNotice (attempt + 1 + 1) 3)] else []) ++
         (process_command_loop text oracle (attempt + 1) left).1,
         (process_command_loop text oracle (attempt + 1) left).2) := by
  obtain ⟨m, hm, hfm⟩ := suspend_user_task_fail (oracle attempt)
    (String.mk (pyStrip e)) hf
  refine ⟨m, hfm, ?_⟩
  simp only [process_command_loop]
  simp [h1, h2, h3, hm, groupStr]

/-- One failing iteration of the retry loop on a DELETE command. -/
theorem delete_iter_fail (text : String) (e : List Char)
    (oracle : Nat → AgentResult) (attempt left : Nat)
    (h1 : refullmatch accessPattern (strippedCmd text) = none)
    (h2 : refullmatch enrollPattern (strippedCmd text) = none)
    (h3 : refullmatch suspendPattern (strippedCmd text) = none)
    (h4 : refullmatch deletePattern (strippedCmd text) = some [e])
    (hf : attemptFailsCS (oracle attempt) = true) :
    ∃ m, isFailureReport m = true ∧
      process_command_loop text oracle attempt (left + 1) =
        ([Ev.send Msg.processingRequest,
          Ev.send (Msg.processingDelete (String.mk (pyStrip e))),
          Ev.agentCall, Ev.send m] ++
         (if attempt + 1 < 3 then [Ev.send (Msg.retryNotice (attempt + 1 + 1) 3)] else []) ++
         (process_command_loop text oracle (attempt + 1) left).1,
         (process_command_loop text oracle (attempt + 1) left).2) := by
  obtain ⟨m, hm, hfm⟩ := delete_user_task_fail (oracle attempt)
    (String.mk (pyStrip e)) hf
  refine ⟨m, hfm, ?_⟩
  simp only [process_command_loop]
  simp [h1, h2, h3, h4, hm, groupStr]

/-- The C3 conclusions, extracted from the common shape of a three-failure
trace (for any intent, `p` being that intent's processing message). -/
theorem three_failures_concl (text : String) (oracle : Nat → AgentResult)
    (p m0 m1 m2 : Msg) (hf2 : isFailureReport m2 = true)
    (htr : process_command text oracle =
      ([Ev.send Msg.processingRequest, Ev.send p, Ev.agentCall, Ev.send m0,
        Ev.send (Msg.retryNotice 2 3),
        Ev.send Msg.processingRequest, Ev.send p, Ev.agentCall, Ev.send m1,
        Ev.send (Msg.retryNotice 3 3),
        Ev.send Msg.processingRequest, Ev.send p, Ev.agentCall, Ev.send m2],
        PyRet.rFalse)) :
    (process_command text oracle).2 = PyRet.rFalse ∧
    callCount (process_command text oracle).1 = 3 ∧
    ∃ pre m, (process_command text oracle).1 = pre ++ [Ev.agentCall, Ev.send m] ∧
      callCount pre = 2 ∧ isFailureReport m = true := by
  refine ⟨by rw [htr], ?_, ?_⟩
  · rw [htr]
    simp [callCount]
  · refine ⟨[Ev.send Msg.processingRequest, Ev.send p, Ev.agentCall, Ev.send m0,
      Ev.send (Msg.retryNotice 2 3),
      Ev.send Msg.processingRequest, Ev.send p, Ev.agentCall, Ev.send m1,
      Ev.send (Msg.retryNotice 3 3),
      Ev.send Msg.processingRequest, Ev.send p], m2, ?_, ?_, hf2⟩
    · rw [htr]
      rfl
    · simp [callCount]

/-- C3.  For every task — a command recognized as any of the four intents
(GRANT_ACCESS, ENROLL, SUSPEND, DELETE, with a valid course code where one
is required) — whose executor call fails on all three attempts (per the
intent's own success test): `process_command` calls the agent exactly 3
times (never a 4th), returns `False`, and the trace ends with the third
agent call followed by exactly one message — the final failure report
relayed to the originating chat. -/
theorem process_command_three_failures_final
    (text : String) (oracle : Nat → AgentResult)
    (hcmd :
      (∃ e c course,
        refullmatch accessPattern (strippedCmd text) = some [e, c] ∧
        List.lookup (String.mk (pyStrip (lowerL c))) COURSE_MAP = some course ∧
        (∀ i, i < 3 → attemptFailsCI (oracle i) = true)) ∨
      (∃ e n c course,
        refullmatch accessPattern (strippedCmd text) = none ∧
        refullmatch enrollPattern (strippedCmd text) = some [e, n, c] ∧
        List.lookup (String.mk (pyStrip (lowerL c))) COURSE_MAP = some course ∧
        (∀ i, i < 3 → attemptFailsCS (oracle i) = true)) ∨
      (∃ e,
        refullmatch accessPattern (strippedCmd text) = none ∧
        refullmatch enrollPattern (strippedCmd text) = none ∧
        refullmatch suspendPattern (strippedCmd text) = some [e] ∧
        (∀ i, i < 3 → attemptFailsCS (oracle i) = true)) ∨
      (∃ e,
        refullmatch accessPattern (strippedCmd text) = none ∧
        refullmatch enrollPattern (strippedCmd text) = none ∧
        refullmatch suspendPattern (strippedCmd text) = none ∧
        refullmatch deletePattern (strippedCmd text) = some [e] ∧
        (∀ i, i < 3 → attemptFailsCS (oracle i) = true))) :
    (process_command text oracle).2 = PyRet.rFalse ∧
    callCount (process_command text oracle).1 = 3 ∧
    ∃ pre m, (process_command text oracle).1 = pre ++ [Ev.agentCall, Ev.send m] ∧
      callCount pre = 2 ∧ isFailureReport m = true := by
  have hbase : process_command_loop text oracle 3 0 = ([], PyRet.rFalse) := rfl
  rcases hcmd with ⟨e, c, course, h1, h2, h3⟩ | ⟨e, n, c, course, h0, h2, h3, hf⟩ |
    ⟨e, h0, hen, h3, hf⟩ | ⟨e, h0, hen, hsu, h4, hf⟩
  · obtain ⟨m0, hf0, ht0⟩ := access_iter_fail text e c course oracle 0 2 h1 h2 (h3 0 (by omega))
    obtain ⟨m1, hf1, ht1⟩ := access_iter_fail text e c course oracle 1 1 h1 h2 (h3 1 (by omega))
    obtain ⟨m2, hf2, ht2⟩ := access_iter_fail text e c course oracle 2 0 h1 h2 (h3 2 (by omega))
    exact three_failures_concl text oracle
      (Msg.processingAccess (String.mk (pyStrip e)) course) m0 m1 m2 hf2
      (by simp [process_command, ht0, ht1, ht2, hbase])
  · obtain ⟨m0, hf0, ht0⟩ := enroll_iter_fail text e n c course oracle 0 2 h0 h2 h3 (hf 0 (by omega))
    obtain ⟨m1, hf1, ht1⟩ := enroll_iter_fail text e n c course oracle 1 1 h0 h2 h3 (hf 1 (by omega))
    obtain ⟨m2, hf2, ht2⟩ := enroll_iter_fail text e n c course oracle 2 0 h0 h2 h3 (hf 2 (by omega))
    exact three_failures_concl text oracle
      (Msg.processingEnroll (String.mk (pyStrip n)) (String.mk (pyStrip e)) course)
      m0 m1 m2 hf2
      (by simp [process_command, ht0, ht1, ht2, hbase])
  · obtain ⟨m0, hf0, ht0⟩ := suspend_iter_fail text e oracle 0 2 h0 hen h3 (hf 0 (by omega))
    obtain ⟨m1, hf1, ht1⟩ := suspend_iter_fail text e oracle 1 1 h0 hen h3 (hf 1 (by omega))
    obtain ⟨m2, hf2, ht2⟩ := suspend_iter_fail text e oracle 2 0 h0 hen h3 (hf 2 (by omega))
    exact three_failures_concl text oracle
      (Msg.processingSuspend (String.mk (pyStrip e))) m0 m1 m2 hf2
      (by simp [process_command, ht0, ht1, ht2, hbase])
  · obtain ⟨m0, hf0, ht0⟩ := delete_iter_fail text e oracle 0 2 h0 hen hsu h4 (hf 0 (by omega))
    obtain ⟨m1, hf1, ht1⟩ := delete_iter_fail text e oracle 1 1 h0 hen hsu h4 (hf 1 (by omega))
    obtain ⟨m2, hf2, ht2⟩ := delete_iter_fail text e oracle 2 0 h0 hen hsu h4 (hf 2 (by omega))
    exact three_failures_concl text oracle
      (Msg.processingDelete (String.mk (pyStrip e))) m0 m1 m2 hf2
      (by simp [process_command, ht0, ht1, ht2, hbase])

/-- Witness for C3: a concrete suspend command with an always-erroring
executor makes exactly 3 attempts and ends in one final failure report. -/
theorem process_command_three_failures_final_witness :
    (process_command "@LearnystBot a@b.com suspend"
        (fun _ => AgentResult.err "boom")).2 = PyRet.rFalse ∧
    callCount (process_command "@LearnystBot a@b.com suspend"
        (fun _ => AgentResult.err "boom")).1 = 3 ∧
    ∃ pre m, (process_command "@LearnystBot a@b.com suspend"
        (fun _ => AgentResult.err "boom")).1 = pre ++ [Ev.agentCall, Ev.send m] ∧
      callCount pre = 2 ∧ isFailureReport m = true :=
  process_command_three_failures_final "@LearnystBot a@b.com suspend"
    (fun _ => AgentResult.err "boom")
    (Or.inr (Or.inr (Or.inl ⟨"a@b.com".toList, by decide, by decide, by decide,
      fun i _ => by simp [attemptFailsCS]⟩)))

/-- C7.  For every task — a command recognized as any of the four intents
(with a valid course code where one is required) — whose executor call
fails on attempt 1 and succeeds on attempt 2 (per the intent's own success
test): the originating chat receives exactly one retry notice and exactly
one success message, never two successes. -/
theorem retry_then_success_single_messages
    (text : String) (oracle : Nat → AgentResult)
    (hcmd :
      (∃ e c course out,
        refullmatch accessPattern (strippedCmd text) = some [e, c] ∧
        List.lookup (String.mk (pyStrip (lowerL c))) COURSE_MAP = some course ∧
        attemptFailsCI (oracle 0) = true ∧
        oracle 1 = AgentResult.ok out ∧
        pyIn "successfully" (lowerS out) = true) ∨
      (∃ e n c course out,
        refullmatch accessPattern (strippedCmd text) = none ∧
        refullmatch enrollPattern (strippedCmd text) = some [e, n, c] ∧
        List.lookup (String.mk (pyStrip (lowerL c))) COURSE_MAP = some course ∧
        attemptFailsCS (oracle 0) = true ∧
        oracle 1 = AgentResult.ok out ∧
        pyIn "successfully" out = true) ∨
      (∃ e out,
        refullmatch accessPattern (strippedCmd text) = none ∧
        refullmatch enrollPattern (strippedCmd text) = none ∧
        refullmatch suspendPattern (strippedCmd text) = some [e] ∧
        attemptFailsCS (oracle 0) = true ∧
        oracle 1 = AgentResult.ok out ∧
        pyIn "successfully" out = true) ∨
      (∃ e out,
        refullmatch accessPattern (strippedCmd text) = none ∧
        refullmatch enrollPattern (strippedCmd text) = none ∧
        refullmatch suspendPattern (strippedCmd text) = none ∧
        refullmatch deletePattern (strippedCmd text) = some [e] ∧
        attemptFailsCS (oracle 0) = true ∧
        oracle 1 = AgentResult.ok out ∧
        pyIn "successfully" out = true)) :
    msgCount isRetryNotice (process_command text oracle).1 = 1 ∧
    msgCount isSuccessMsg (process_command text oracle).1 = 1 := by
  rcases hcmd with ⟨e, c, course, out, h1, h2, hf0, hok, hsu⟩ |
    ⟨e, n, c, course, out, h0, h2, h3, hf0, hok, hsu⟩ |
    ⟨e, out, h0, hen, h3, hf0, hok, hsu⟩ |
    ⟨e, out, h0, hen, hsus, h4, hf0, hok, hsu⟩
  · obtain ⟨m0, hfm0, ht0⟩ := access_iter_fail text e c course oracle 0 2 h1 h2 hf0
    have hsucc : give_access_task (oracle 1) (String.mk (pyStrip e)) course =
        ([Ev.agentCall, Ev.send (Msg.successAccess course (String.mk (pyStrip e)))],
          true) := by
      rw [hok]
      simp [give_access_task, hsu]
    have ht1 : process_command_loop text oracle 1 2 =
        ([Ev.send Msg.processingRequest,
          Ev.send (Msg.processingAccess (String.mk (pyStrip e)) course),
          Ev.agentCall, Ev.send (Msg.successAccess course (String.mk (pyStrip e)))],
          PyRet.rTrue) := by
      simp only [process_command_loop]
      simp [h1, h2, hsucc, groupStr]
    have htr : process_command text oracle =
        ([Ev.send Msg.processingRequest,
          Ev.send (Msg.processingAccess (String.mk (pyStrip e)) course),
          Ev.agentCall, Ev.send m0,
          Ev.send (Msg.retryNotice 2 3),
          Ev.send Msg.processingRequest,
          Ev.send (Msg.processingAccess (String.mk (pyStrip e)) course),
          Ev.agentCall, Ev.send (Msg.successAccess course (String.mk (pyStrip e)))],
          PyRet.rTrue) := by
      simp [process_command, ht0, ht1]
    rw [htr]
    rcases failure_report_shape m0 hfm0 with ⟨o, rfl⟩ | ⟨eo, rfl⟩ <;>
      exact ⟨by simp [msgCount_send, msgCount_call, msgCount_nil, isRetryNotice, isSuccessMsg],
             by simp [msgCount_send, msgCount_call, msgCount_nil, isRetryNotice, isSuccessMsg]⟩
  · obtain ⟨m0, hfm0, ht0⟩ := enroll_iter_fail text e n c course oracle 0 2 h0 h2 h3 hf0
    have hsucc : enroll_user_task (oracle 1) (String.mk (pyStrip n))
        (String.mk (pyStrip e)) course =
        ([Ev.agentCall, Ev.send (Msg.successEnroll (String.mk (pyStrip n))
          (String.mk (pyStrip e)) course)], true) := by
      rw [hok]
      simp [enroll_user_task, hsu]
    have ht1 : process_command_loop text oracle 1 2 =
        ([Ev.send Msg.processingRequest,
          Ev.send (Msg.processingEnroll (String.mk (pyStrip n))
            (String.mk (pyStrip e)) course),
          Ev.agentCall, Ev.send (Msg.successEnroll (String.mk (pyStrip n))
            (String.mk (pyStrip e)) course)],
          PyRet.rTrue) := by
      simp only [process_command_loop]
      simp [h0, h2, h3, hsucc, groupStr]
    have htr : process_command text oracle =
        ([Ev.send Msg.processingRequest,
          Ev.send (Msg.processingEnroll (String.mk (pyStrip n))
            (String.mk (pyStrip e)) course),
          Ev.agentCall, Ev.send m0,
          Ev.send (Msg.retryNotice 2 3),
          Ev.send Msg.processingRequest,
          Ev.send (Msg.processingEnroll (String.mk (pyStrip n))
            (String.mk (pyStrip e)) course),
          Ev.agentCall, Ev.send (Msg.successEnroll (String.mk (pyStrip n))
            (String.mk (pyStrip e)) course)],
          PyRet.rTrue) := by
      simp [process_command, ht0, ht1]
    rw [htr]
    rcases failure_report_shape m0 hfm0 with ⟨o, rfl⟩ | ⟨eo, rfl⟩ <;>
      exact ⟨by simp [msgCount_send, msgCount_call, msgCount_nil, isRetryNotice, isSuccessMsg],
             by simp [msgCount_send, msgCount_call, msgCount_nil, isRetryNotice, isSuccessMsg]⟩
  · obtain ⟨m0, hfm0, ht0⟩ := suspend_iter_fail text e oracle 0 2 h0 hen h3 hf0
    have hsucc : suspend_user_task (oracle 1) (String.mk (pyStrip e)) =
        ([Ev.agentCall, Ev.send (Msg.successSuspend (String.mk (pyStrip e)))],
          true) := by
      rw [hok]
      simp [suspend_user_task, hsu]
    have ht1 : process_command_loop text oracle 1 2 =
        ([Ev.send Msg.processingRequest,
          Ev.send (Msg.processingSuspend (String.mk (pyStrip e))),
          Ev.agentCall, Ev.send (Msg.successSuspend (String.mk (pyStrip e)))],
          PyRet.rTrue) := by
      simp only [process_command_loop]
      simp [h0, hen, h3, hsucc, groupStr]
    have htr : process_command text oracle =
        ([Ev.send Msg.processingRequest,
          Ev.send (Msg.processingSuspend (String.mk (pyStrip e))),
          Ev.agentCall, Ev.send m0,
          Ev.send (Msg.retryNotice 2 3),
          Ev.send Msg.processingRequest,
          Ev.send (Msg.processingSuspend (String.mk (pyStrip e))),
          Ev.agentCall, Ev.send (Msg.successSuspend (String.mk (pyStrip e)))],
          PyRet.rTrue) := by
      simp [process_command, ht0, ht1]
    rw [htr]
    rcases failure_report_shape m0 hfm0 with ⟨o, rfl⟩ | ⟨eo, rfl⟩ <;>
      exact ⟨by simp [msgCount_send, msgCount_call, msgCount_nil, isRetryNotice, isSuccessMsg],
             by simp [msgCount_send, msgCount_call, msgCount_nil, isRetryNotice, isSuccessMsg]⟩
  · obtain ⟨m0, hfm0, ht0⟩ := delete_iter_fail text e oracle 0 2 h0 hen hsus h4 hf0
    have hsucc : delete_user_task (oracle 1) (String.mk (pyStrip e)) =
        ([Ev.agentCall, Ev.send (Msg.successDelete (String.mk (pyStrip e)))],
          true) := by
      rw [hok]
      simp [delete_user_task, hsu]
    have ht1 : process_command_loop text oracle 1 2 =
        ([Ev.send Msg.processingRequest,
          Ev.send (Msg.processingDelete (String.mk (pyStrip e))),
          Ev.agentCall, Ev.send (Msg.successDelete (String.mk (pyStrip e)))],
          PyRet.rTrue) := by
      simp only [process_command_loop]
      simp [h0, hen, hsus, h4, hsucc, groupStr]
    have htr : process_command text oracle =
        ([Ev.send Msg.processingRequest,
          Ev.send (Msg.processingDelete (String.mk (pyStrip e))),
          Ev.agentCall, Ev.send m0,
          Ev.send (Msg.retryNotice 2 3),
          Ev.send Msg.processingRequest,
          Ev.send (Msg.processingDelete (String.mk (pyStrip e))),
          Ev.agentCall, Ev.send (Msg.successDelete (String.mk (pyStrip e)))],
          PyRet.rTrue) := by
      simp [process_command, ht0, ht1]
    rw [htr]
    rcases failure_report_shape m0 hfm0 with ⟨o, rfl⟩ | ⟨eo, rfl⟩ <;>
      exact ⟨by simp [msgCount_send, msgCount_call, msgCount_nil, isRetryNotice, isSuccessMsg],
             by simp [msgCount_send, msgCount_call, msgCount_nil, isRetryNotice, isSuccessMsg]⟩

/-- One failing iteration on a GRANT_ACCESS command when the agent returns
`out` without the (lowercased) success marker. -/
theorem access_iter_fail_ok (text : String) (e c : List Char) (course out : String)
    (attempt left : Nat)
    (h1 : refullmatch accessPattern (strippedCmd text) = some [e, c])
    (h2 : List.lookup (String.mk (pyStrip (lowerL c))) COURSE_MAP = some course)
    (hno : pyIn "successfully" (lowerS out) = false) :
    process_command_loop text (fun _ => AgentResult.ok out) attempt (left + 1) =
      ([Ev.send Msg.processingRequest,
        Ev.send (Msg.processingAccess (String.mk (pyStrip e)) course),
        Ev.agentCall, Ev.send (Msg.relay out)] ++
       (if attempt + 1 < 3 then [Ev.send (Msg.retryNotice (attempt + 1 + 1) 3)] else []) ++
       (process_command_loop text (fun _ => AgentResult.ok out) (attempt + 1) left).1,
       (process_command_loop text (fun _ => AgentResult.ok out) (attempt + 1) left).2) := by
  simp only [process_command_loop]
  simp [h1, h2, give_access_task, hno, groupStr]

/-- One failing iteration on an ENROLL command when the agent returns `out`
without the exact (case-sensitive) success marker. -/
theorem enroll_iter_fail_ok (text : String) (e n c : List Char) (course out : String)
    (attempt left : Nat)
    (h1 : refullmatch accessPattern (strippedCmd text) = none)
    (h2 : refullmatch enrollPattern (strippedCmd text) = some [e, n, c])
    (h3 : List.lookup (String.mk (pyStrip (lowerL c))) COURSE_MAP = some course)
    (hno : pyIn "successfully" out = false) :
    process_command_loop text (fun _ => AgentResult.ok out) attempt (left + 1) =
      ([Ev.send Msg.processingRequest,
        Ev.send (Msg.processingEnroll (String.mk (pyStrip n)) (String.mk (pyStrip e)) course),
        Ev.agentCall, Ev.send (Msg.relay out)] ++
       (if attempt + 1 < 3 then [Ev.send (Msg.retryNotice (attempt + 1 + 1) 3)] else []) ++
       (process_command_loop text (fun _ => AgentResult.ok out) (attempt + 1) left).1,
       (process_command_loop text (fun _ => AgentResult.ok out) (attempt + 1) left).2) := by
  simp only [process_command_loop]
  simp [h1, h2, h3, enroll_user_task, hno, groupStr]

/-- One failing iteration on a SUSPEND command when the agent returns `out`
without the exact (case-sensitive) success marker. -/
theorem suspend_iter_fail_ok (text : String) (e : List Char) (out : String)
    (attempt left : Nat)
    (h1 : refullmatch accessPattern (strippedCmd text) = none)
    (h2 : refullmatch enrollPattern (strippedCmd text) = none)
    (h3 : refullmatch suspendPattern (strippedCmd text) = some [e])
    (hno : pyIn "successfully" out = false) :
    process_command_loop text (fun _ => AgentResult.ok out) attempt (left + 1) =
      ([Ev.send Msg.processingRequest,
        Ev.send (Msg.processingSuspend (String.mk (pyStrip e))),
        Ev.agentCall, Ev.send (Msg.relay out)] ++
       (if attempt + 1 < 3 then [Ev.send (Msg.retryNotice (attempt + 1 + 1) 3)] else []) ++
       (process_command_loop text (fun _ => AgentResult.ok out) (attempt + 1) left).1,
       (process_command_loop text (fun _ => AgentResult.ok out) (attempt + 1) left).2) := by
  simp only [process_command_loop]
  simp [h1, h2, h3, suspend_user_task, hno, groupStr]

/-- One failing iteration on a DELETE command when the agent returns `out`
without the exact (case-sensitive) success marker. -/
theorem delete_iter_fail_ok (text : String) (e : List Char) (out : String)
    (attempt left : Nat)
    (h1 : refullmatch accessPattern (strippedCmd text) = none)
    (h2 : refullmatch enrollPattern (strippedCmd text) = none)
    (h3 : refullmatch suspendPattern (strippedCmd text) = none)
    (h4 : refullmatch deletePattern (strippedCmd text) = some [e])
    (hno : pyIn "successfully" out = false) :
    process_command_loop text (fun _ => AgentResult.ok out) attempt (left + 1) =
      ([Ev.send Msg.processingRequest,
        Ev.send (Msg.processingDelete (String.mk (pyStrip e))),
        Ev.agentCall, Ev.send (Msg.relay out)] ++
       (if attempt + 1 < 3 then [Ev.send (Msg.retryNotice (attempt + 1 + 1) 3)] else []) ++
       (process_command_loop text (fun _ => AgentResult.ok out) (attempt + 1) left).1,
       (process_command_loop text (fun _ => AgentResult.ok out) (attempt + 1) left).2) := by
  simp only [process_command_loop]
  simp [h1, h2, h3, h4, delete_user_task, hno, groupStr]

/-- Witness for C7: an enroll command failing once with an exception, then
succeeding. -/
theorem retry_then_success_single_messages_witness :
    msgCount isRetryNotice (process_command "@LearnystBot jane@x.com (Jane Doe) enroll fs2"
      (fun i => if i = 0 then AgentResult.err "boom"
                else AgentResult.ok "Learner enrolled successfully")).1 = 1 ∧
    msgCount isSuccessMsg (process_command "@LearnystBot jane@x.com (Jane Doe) enroll fs2"
      (fun i => if i = 0 then AgentResult.err "boom"
                else AgentResult.ok "Learner enrolled successfully")).1 = 1 :=
  retry_then_success_single_messages "@LearnystBot jane@x.com (Jane Doe) enroll fs2"
    (fun i => if i = 0 then AgentResult.err "boom"
              else AgentResult.ok "Learner enrolled successfully")
    (Or.inr (Or.inl ⟨"jane@x.com".toList, "Jane Doe".toList, "fs2".toList,
      "Full Stack 2", "Learner enrolled successfully",
      by decide, by decide, by decide, by decide, by decide, by decide⟩))

/-- C4 counterexample.  For the ENROLL intent the success check is
case-sensitive: the executor output `"Learner enrolled Successfully"`
contains `"Successfully"` (so it contains `"successfully"` up to letter
casing), yet `process_command` never reports success — it relays the
output as a failure, retries, and finally returns `False`.  This refutes
"for every intent, success is a case-insensitive substring match". -/
theorem enroll_success_marker_case_sensitive_cex :
    pyIn "successfully" (lowerS "Learner enrolled Successfully") = true ∧
    msgCount isSuccessMsg
      (process_command "@LearnystBot jane@x.com (Jane Doe) enroll fs1"
        (fun _ => AgentResult.ok "Learner enrolled Successfully")).1 = 0 ∧
    (process_command "@LearnystBot jane@x.com (Jane Doe) enroll fs1"
        (fun _ => AgentResult.ok "Learner enrolled Successfully")).2 = PyRet.rFalse := by
  decide

/-- C4 as amended.  Success of an executor call is decided by a substring
match of `"successfully"` against the returned text, but the casing rule
differs per intent: for GRANT_ACCESS the output is lowercased first
(case-insensitive match, bot.py line 157), while for ENROLL, SUSPEND and
DELETE the match is case-sensitive on the raw output (lines 220, 277, 334)
— an output containing the marker only with different casing counts as a
failed attempt.  Stated for an executor that returns `out` on every
attempt: a success message is sent iff the respective marker test passes. -/
theorem success_marker_per_intent
    (out : String)
    (tA : String) (eA cA : List Char) (courseA : String)
    (tE : String) (eE nE cE : List Char) (courseE : String)
    (tS : String) (eS : List Char)
    (tD : String) (eD : List Char)
    (h1A : refullmatch accessPattern (strippedCmd tA) = some [eA, cA])
    (h2A : List.lookup (String.mk (pyStrip (lowerL cA))) COURSE_MAP = some courseA)
    (h1E : refullmatch accessPattern (strippedCmd tE) = none)
    (h2E : refullmatch enrollPattern (strippedCmd tE) = some [eE, nE, cE])
    (h3E : List.lookup (String.mk (pyStrip (lowerL cE))) COURSE_MAP = some courseE)
    (h1S : refullmatch accessPattern (strippedCmd tS) = none)
    (h2S : refullmatch enrollPattern (strippedCmd tS) = none)
    (h3S : refullmatch suspendPattern (strippedCmd tS) = some [eS])
    (h1D : refullmatch accessPattern (strippedCmd tD) = none)
    (h2D : refullmatch enrollPattern (strippedCmd tD) = none)
    (h3D : refullmatch suspendPattern (strippedCmd tD) = none)
    (h4D : refullmatch deletePattern (strippedCmd tD) = some [eD]) :
    (0 < msgCount isSuccessMsg
        (process_command tA (fun _ => AgentResult.ok out)).1
      ↔ pyIn "successfully" (lowerS out) = true) ∧
    (0 < msgCount isSuccessMsg
        (process_command tE (fun _ => AgentResult.ok out)).1
      ↔ pyIn "successfully" out = true) ∧
    (0 < msgCount isSuccessMsg
        (process_command tS (fun _ => AgentResult.ok out)).1
      ↔ pyIn "successfully" out = true) ∧
    (0 < msgCount isSuccessMsg
        (process_command tD (fun _ => AgentResult.ok out)).1
      ↔ pyIn "successfully" out = true) := by
  refine ⟨?_, ?_, ?_, ?_⟩
  · by_cases h : pyIn "successfully" (lowerS out) = true
    · have htr : process_command tA (fun _ => AgentResult.ok out) =
          ([Ev.send Msg.processingRequest,
            Ev.send (Msg.processingAccess (String.mk (pyStrip eA)) courseA),
            Ev.agentCall,
            Ev.send (Msg.successAccess courseA (String.mk (pyStrip eA)))],
            PyRet.rTrue) := by
        simp [process_command, process_command_loop, h1A, h2A, give_access_task, h,
          groupStr]
      rw [htr]
      simp [msgCount_send, msgCount_call, msgCount_nil, isSuccessMsg, h]
    · have h' : pyIn "successfully" (lowerS out) = false := by
        simpa using h
      have ht0 := access_iter_fail_ok tA eA cA courseA out 0 2 h1A h2A h'
      have ht1 := access_iter_fail_ok tA eA cA courseA out 1 1 h1A h2A h'
      have ht2 := access_iter_fail_ok tA eA cA courseA out 2 0 h1A h2A h'
      have hbase : process_command_loop tA (fun _ => AgentResult.ok out) 3 0 =
          ([], PyRet.rFalse) := rfl
      have htr : process_command tA (fun _ => AgentResult.ok out) =
          ([Ev.send Msg.processingRequest,
            Ev.send (Msg.processingAccess (String.mk (pyStrip eA)) courseA),
            Ev.agentCall, Ev.send (Msg.relay out),
            Ev.send (Msg.retryNotice 2 3),
            Ev.send Msg.processingRequest,
            Ev.send (Msg.processingAccess (String.mk (pyStrip eA)) courseA),
            Ev.agentCall, Ev.send (Msg.relay out),
            Ev.send (Msg.retryNotice 3 3),
            Ev.send Msg.processingRequest,
            Ev.send (Msg.processingAccess (String.mk (pyStrip eA)) courseA),
            Ev.agentCall, Ev.send (Msg.relay out)], PyRet.rFalse) := by
        simp [process_command, ht0, ht1, ht2, hbase]
      rw [htr]
      simp [msgCount_send, msgCount_call, msgCount_nil, isSuccessMsg, h']
  · by_cases h : pyIn "successfully" out = true
    · have htr : process_command tE (fun _ => AgentResult.ok out) =
          ([Ev.send Msg.processingRequest,
            Ev.send (Msg.processingEnroll (String.mk (pyStrip nE))
              (String.mk (pyStrip eE)) courseE),
            Ev.agentCall,
            Ev.send (Msg.successEnroll (String.mk (pyStrip nE))
              (String.mk (pyStrip eE)) courseE)],
            PyRet.rTrue) := by
        simp [process_command, process_command_loop, h1E, h2E, h3E, enroll_user_task,
          h, groupStr]
      rw [htr]
      simp [msgCount_send, msgCount_call, msgCount_nil, isSuccessMsg, h]
    · have h' : pyIn "successfully" out = false := by
        simpa using h
      have ht0 := enroll_iter_fail_ok tE eE nE cE courseE out 0 2 h1E h2E h3E h'
      have ht1 := enroll_iter_fail_ok tE eE nE cE courseE out 1 1 h1E h2E h3E h'
      have ht2 := enroll_iter_fail_ok tE eE nE cE courseE out 2 0 h1E h2E h3E h'
      have hbase : process_command_loop tE (fun _ => AgentResult.ok out) 3 0 =
          ([], PyRet.rFalse) := rfl
      have htr : process_command tE (fun _ => AgentResult.ok out) =
          ([Ev.send Msg.processingRequest,
            Ev.send (Msg.processingEnroll (String.mk (pyStrip nE))
              (String.mk (pyStrip eE)) courseE),
            Ev.agentCall, Ev.send (Msg.relay out),
            Ev.send (Msg.retryNotice 2 3),
            Ev.send Msg.processingRequest,
            Ev.send (Msg.processingEnroll (String.mk (pyStrip nE))
              (String.mk (pyStrip eE)) courseE),
            Ev.agentCall, Ev.send (Msg.relay out),
            Ev.send (Msg.retryNotice 3 3),
            Ev.send Msg.processingRequest,
            Ev.send (Msg.processingEnroll (String.mk (pyStrip nE))
              (String.mk (pyStrip eE)) courseE),
            Ev.agentCall, Ev.send (Msg.relay out)], PyRet.rFalse) := by
        simp [process_command, ht0, ht1, ht2, hbase]
      rw [htr]
      simp [msgCount_send, msgCount_call, msgCount_nil, isSuccessMsg, h']
  · by_cases h : pyIn "successfully" out = true
    · have htr : process_command tS (fun _ => AgentResult.ok out) =
          ([Ev.send Msg.processingRequest,
            Ev.send (Msg.processingSuspend (String.mk (pyStrip eS))),
            Ev.agentCall,
            Ev.send (Msg.successSuspend (String.mk (pyStrip eS)))],
            PyRet.rTrue) := by
        simp [process_command, process_command_loop, h1S, h2S, h3S,
          suspend_user_task, h, groupStr]
      rw [htr]
      simp [msgCount_send, msgCount_call, msgCount_nil, isSuccessMsg, h]
    · have h' : pyIn "successfully" out = false := by
        simpa using h
      have ht0 := suspend_iter_fail_ok tS eS out 0 2 h1S h2S h3S h'
      have ht1 := suspend_iter_fail_ok tS eS out 1 1 h1S h2S h3S h'
      have ht2 := suspend_iter_fail_ok tS eS out 2 0 h1S h2S h3S h'
      have hbase : process_command_loop tS (fun _ => AgentResult.ok out) 3 0 =
          ([], PyRet.rFalse) := rfl
      have htr : process_command tS (fun _ => AgentResult.ok out) =
          ([Ev.send Msg.processingRequest,
            Ev.send (Msg.processingSuspend (String.mk (pyStrip eS))),
            Ev.agentCall, Ev.send (Msg.relay out),
            Ev.send (Msg.retryNotice 2 3),
            Ev.send Msg.processingRequest,
            Ev.send (Msg.processingSuspend (String.mk (pyStrip eS))),
            Ev.agentCall, Ev.send (Msg.relay out),
            Ev.send (Msg.retryNotice 3 3),
            Ev.send Msg.processingRequest,
            Ev.send (Msg.processingSuspend (String.mk (pyStrip eS))),
            Ev.agentCall, Ev.send (Msg.relay out)], PyRet.rFalse) := by
        simp [process_command, ht0, ht1, ht2, hbase]
      rw [htr]
      simp [msgCount_send, msgCount_call, msgCount_nil, isSuccessMsg, h']
  · by_cases h : pyIn "successfully" out = true
    · have htr : process_command tD (fun _ => AgentResult.ok out) =
          ([Ev.send Msg.processingRequest,
            Ev.send (Msg.processingDelete (String.mk (pyStrip eD))),
            Ev.agentCall,
            Ev.send (Msg.successDelete (String.mk (pyStrip eD)))],
            PyRet.rTrue) := by
        simp [process_command, process_command_loop, h1D, h2D, h3D, h4D,
          delete_user_task, h, groupStr]
      rw [htr]
      simp [msgCount_send, msgCount_call, msgCount_nil, isSuccessMsg, h]
    · have h' : pyIn "successfully" out = false := by
        simpa using h
      have ht0 := delete_iter_fail_ok tD eD out 0 2 h1D h2D h3D h4D h'
      have ht1 := delete_iter_fail_ok tD eD out 1 1 h1D h2D h3D h4D h'
      have ht2 := delete_iter_fail_ok tD eD out 2 0 h1D h2D h3D h4D h'
      have hbase : process_command_loop tD (fun _ => AgentResult.ok out) 3 0 =
          ([], PyRet.rFalse) := rfl
      have htr : process_command tD (fun _ => AgentResult.ok out) =
          ([Ev.send Msg.processingRequest,
            Ev.send (Msg.processingDelete (String.mk (pyStrip eD))),
            Ev.agentCall, Ev.send (Msg.relay out),
            Ev.send (Msg.retryNotice 2 3),
            Ev.send Msg.processingRequest,
            Ev.send (Msg.processingDelete (String.mk (pyStrip eD))),
            Ev.agentCall, Ev.send (Msg.relay out),
            Ev.send (Msg.retryNotice 3 3),
            Ev.send Msg.processingRequest,
            Ev.send (Msg.processingDelete (String.mk (pyStrip eD))),
            Ev.agentCall, Ev.send (Msg.relay out)], PyRet.rFalse) := by
        simp [process_command, ht0, ht1, ht2, hbase]
      rw [htr]
      simp [msgCount_send, msgCount_call, msgCount_nil, isSuccessMsg, h']

/-- Witness for C4-as-amended at concrete commands and the output
`"Task done Successfully"`. -/
theorem success_marker_per_intent_witness :
    (0 < msgCount isSuccessMsg
        (process_command "@LearnystBot jane@x.com access fs1"
          (fun _ => AgentResult.ok "Task done Successfully")).1
      ↔ pyIn "successfully" (lowerS "Task done Successfully") = true) ∧
    (0 < msgCount isSuccessMsg
        (process_command "@LearnystBot jane@x.com (Jane Doe) enroll fs1"
          (fun _ => AgentResult.ok "Task done Successfully")).1
      ↔ pyIn "successfully" "Task done Successfully" = true) ∧
    (0 < msgCount isSuccessMsg
        (process_command "@LearnystBot a@b.com suspend"
          (fun _ => AgentResult.ok "Task done Successfully")).1
      ↔ pyIn "successfully" "Task done Successfully" = true) ∧
    (0 < msgCount isSuccessMsg
        (process_command "@LearnystBot a@b.com delete"
          (fun _ => AgentResult.ok "Task done Successfully")).1
      ↔ pyIn "successfully" "Task done Successfully" = true) :=
  success_marker_per_intent "Task done Successfully"
    "@LearnystBot jane@x.com access fs1" "jane@x.com".toList "fs1".toList "Full Stack 1"
    "@LearnystBot jane@x.com (Jane Doe) enroll fs1" "jane@x.com".toList
    "Jane Doe".toList "fs1".toList "Full Stack 1"
    "@LearnystBot a@b.com suspend" "a@b.com".toList
    "@LearnystBot a@b.com delete" "a@b.com".toList
    (by decide) (by decide) (by decide) (by decide) (by decide)
    (by decide) (by decide) (by decide)
    (by decide) (by decide) (by decide) (by decide)
